import Mathlib

/-!
Verification development for the VEDA data-ingestion utility scripts.

The development shallowly embeds two source files:

* `Data-ingest/fix_tiff_predictor.py` — the TIFF repairer.  The GDAL
  library is an external collaborator; its calls are modelled through an
  explicit environment (`Env`) that records, for one repair invocation,
  whether each external operation can succeed, together with the GDAL
  exception mode.  When `gdal.UseExceptions()` is active (the CLI entry
  point `main` enables it unconditionally), a failing GDAL call raises a
  RuntimeError instead of returning a null handle; this is modelled with
  `Except`: a `.error` value is an exception escaping the modelled code.

* `Data-ingest/transformation-examples/transformation-plugin.py` — the
  example transformer.  Labelled arrays are modelled with explicit
  coordinate lists plus a value function indexed by coordinate labels;
  grid values are rationals.
-/

/-- Compression codec choices accepted by the repairer CLI
(argparse choices NONE, LZW, DEFLATE, ZSTD). -/
inductive Compression : Type
| NONE : Compression
| LZW : Compression
| DEFLATE : Compression
| ZSTD : Compression
deriving DecidableEq

/-- The string form of a codec choice, as passed on the command line. -/
def compressionName : Compression → String
| Compression.NONE => "NONE"
| Compression.LZW => "LZW"
| Compression.DEFLATE => "DEFLATE"
| Compression.ZSTD => "ZSTD"

/-- The GTiff creation options built by fix_tiff_predictor (source lines
38 to 49): codec, predictor forced to 1 (none), 512 by 512 tiling, BigTIFF;
ZLEVEL 6 is appended exactly for DEFLATE.  The source never reads any
property of the input dataset when building this list. -/
def creation_options (compression : Compression) : List String :=
  ["COMPRESS=" ++ compressionName compression,
   "PREDICTOR=1",
   "TILED=YES",
   "BLOCKXSIZE=512",
   "BLOCKYSIZE=512",
   "BIGTIFF=YES"]
  ++ (if compression = Compression.DEFLATE then ["ZLEVEL=6"] else [])

/-- The external world for one repair invocation: which GDAL operations
succeed, the GDAL exception mode, and facts about the input raster that
the script could in principle observe.  inputPredictor is the predictor
tag stored in the source file; the repair never reads it. -/
structure Env : Type where
  useExceptions : Bool
  canOpenInput : Bool
  canCreateOutput : Bool
  canOpenOutput : Bool
  canReadSample : Bool
  inputPredictor : Nat
  xSize : Nat
  ySize : Nat
deriving DecidableEq

deriving instance DecidableEq for Except

/-- Observable outcome of one fix_tiff_predictor call.  result is
ok b when the Python function returns the boolean b, and error when an
uncaught exception escapes the function.  outputCreated records whether
the output file exists on disk afterwards (the source never deletes it).
optionsUsed is the creation-option list handed to CreateCopy, when
reached.  verifyWindow is the sample-window size requested from band 1
during the verification read, when reached. -/
structure RepairResult : Type where
  result : Except Unit Bool
  outputCreated : Bool
  optionsUsed : Option (List String)
  verifyWindow : Option (Nat × Nat)
  messages : List String
deriving DecidableEq

/-- Shallow embedding of fix_tiff_predictor (source lines 12 to 91).
gdal.Open and driver.CreateCopy report failure by returning a null
handle when exceptions are off, and by raising when useExceptions is
set; the null-handle checks of the source are therefore dead in
exception mode.  The verification read (lines 79 to 88) is wrapped in
try/except in the source, so its failure is caught in either mode and
the function returns False with a warning. -/
def fix_tiff_predictor (env : Env) (compression : Compression) : RepairResult :=
  if env.canOpenInput = false then
    if env.useExceptions then
      { result := Except.error (), outputCreated := false, optionsUsed := none,
        verifyWindow := none, messages := [] }
    else
      { result := Except.ok false, outputCreated := false, optionsUsed := none,
        verifyWindow := none, messages := ["Error: Could not open input"] }
  else
    let opts := creation_options compression
    if env.canCreateOutput = false then
      if env.useExceptions then
        { result := Except.error (), outputCreated := false, optionsUsed := some opts,
          verifyWindow := none, messages := [] }
      else
        { result := Except.ok false, outputCreated := false, optionsUsed := some opts,
          verifyWindow := none, messages := ["Error: Could not create output"] }
    else
      if env.canOpenOutput = false then
        if env.useExceptions then
          { result := Except.error (), outputCreated := true, optionsUsed := some opts,
            verifyWindow := none,
            messages := ["Successfully created output"] }
        else
          { result := Except.ok false, outputCreated := true, optionsUsed := some opts,
            verifyWindow := none,
            messages := ["Successfully created output",
                         "Error: Could not verify output file"] }
      else
        let window := (min 100 env.xSize, min 100 env.ySize)
        if env.canReadSample then
          { result := Except.ok true, outputCreated := true, optionsUsed := some opts,
            verifyWindow := some window,
            messages := ["Successfully created output",
                         "Verification: Output file is readable"] }
        else
          { result := Except.ok false, outputCreated := true, optionsUsed := some opts,
            verifyWindow := some window,
            messages := ["Successfully created output",
                         "Warning: Output file created but may still have issues"] }

/-- Shallow embedding of process_directory (source lines 93 to 106): run
the single-file repair on each matched file in order, counting the True
returns.  An exception escaping one fix_tiff_predictor call escapes the
loop, aborting the remaining files. -/
def process_directory (files : List Env) (compression : Compression) : Except Unit Nat :=
  match files with
  | [] => Except.ok 0
  | f :: rest =>
    match (fix_tiff_predictor f compression).result with
    | Except.error e => Except.error e
    | Except.ok b =>
      match process_directory rest compression with
      | Except.error e => Except.error e
      | Except.ok n => Except.ok ((if b then 1 else 0) + n)

/-- Command-line facts relevant to main: the -d flag, and what kind of
filesystem object the positional input argument denotes. -/
structure CliArgs : Type where
  directoryMode : Bool
  inputIsDirectory : Bool
  inputIsFile : Bool
deriving DecidableEq

/-- main calls gdal.UseExceptions() before any GDAL operation (source
line 138), so every environment it hands to the repair has the
exception mode set. -/
def setExceptionMode (env : Env) : Env :=
  { env with useExceptions := true }

/-- Shallow embedding of the script entry point main (source lines 108
to 152; the name main is reserved in Lean), after argument parsing:
ok n means the process exits with status n through sys.exit or
by falling off the end (status 0); error means an uncaught exception
terminates the interpreter. -/
def cli_main (args : CliArgs) (dirFiles : List Env) (singleFile : Env)
    (compression : Compression) : Except Unit Nat :=
  if args.directoryMode then
    if args.inputIsDirectory = false then Except.ok 1
    else
      match process_directory (dirFiles.map setExceptionMode) compression with
      | Except.error e => Except.error e
      | Except.ok _ => Except.ok 0
  else
    if args.inputIsFile = false then Except.ok 1
    else
      match (fix_tiff_predictor (setExceptionMode singleFile) compression).result with
      | Except.error e => Except.error e
      | Except.ok b => Except.ok (if b then 0 else 1)

/-- The process exit status a shell observes: the sys.exit argument on a
normal exit, and 1 when the interpreter dies on an uncaught exception. -/
def exitStatus : Except Unit Nat → Nat
| Except.ok n => n
| Except.error _ => 1

/-- Characters on which the transformer splits filenames: the regular
expression class [_ .] in the source (line 67). -/
def isDelim (c : Char) : Bool :=
  c = '_' || c = ' ' || c = '.'

/-- Splitting a character sequence at every character satisfying p,
keeping empty pieces, exactly as Python re.split with a single-character
class (and str.split with a one-character separator) does.  The result
is never empty. -/
def splitBy (p : Char → Bool) : List Char → List (List Char)
| [] => [[]]
| c :: cs =>
  let r := splitBy p cs
  if p c then [] :: r
  else
    match r with
    | [] => [[c]]
    | t :: ts => (c :: t) :: ts

/-- re.split of a filename on the class [_ .] (source line 67). -/
def split_tokens (s : String) : List String :=
  (splitBy isDelim s.data).map (fun l => String.mk l)

/-- name.split of the slash character, last element (source line 66). -/
def basename (s : String) : String :=
  String.mk ((splitBy (fun c => c = '/') s.data).getLastD [])

/-- The output filename derivation of the transformer (source lines 66
to 91): split the basename on the delimiters, drop the last token (the
extension), merge the last two remaining tokens into one, join with
underscores and append the tif extension.  With fewer than three tokens
the Python list indexing raises IndexError, modelled as none. -/
def derive_cog_filename (name : String) : Option String :=
  let filename_elements := split_tokens (basename name)
  match (filename_elements.dropLast).reverse with
  | a :: b :: rest =>
    some (String.intercalate "_" (((b ++ a) :: rest).reverse) ++ ".tif")
  | _ => none

/-- The longitude assigned to grid index i (source line 53). -/
def lon_from_index (i : ℚ) : ℚ :=
  i / 1440 * 360 - 180

/-- The latitude assigned to grid index i (source line 57). -/
def lat_from_index (i : ℚ) : ℚ :=
  i / 721 * 180 - 90

/-- Ascending sort of a coordinate list, the effect of sortby on the
named coordinate axis. -/
def sortQ (l : List ℚ) : List ℚ :=
  l.insertionSort (fun a b => a ≤ b)

/-- A source NetCDF dataset as the transformer sees it after opening:
the y and x coordinate index lists and the named data variables, each a
grid-value function of (y index, x index). -/
structure NcDataset : Type where
  latIdx : List ℚ
  lonIdx : List ℚ
  data_vars : List (String × (ℚ → ℚ → ℚ))

/-- A labelled data array as produced by the transformer and consumed by
the validation gate: rio extension availability, dimension names, the
two coordinate lists, a value function indexed by (latitude, longitude)
coordinate labels, the reference system, and the nodata sentinel. -/
structure DataArray : Type where
  hasRio : Bool
  dims : List String
  latCoords : List ℚ
  lonCoords : List ℚ
  value : ℚ → ℚ → ℚ
  crs : Option String
  nodata : Option ℚ

/-- The per-variable body of the transformer loop (source lines 70 to
81): coordinates transformed from indices and sorted ascending, then
the latitude axis reversed by reindex; values relabelled from index
space to coordinate space, with cells equal to the input sentinel
replaced by -9999; rio spatial dims, CRS epsg 4326 and nodata -9999
attached. -/
def ecco_var_array (xds : NcDataset) (f : ℚ → ℚ → ℚ) (nodata : ℚ) : DataArray :=
  let latC := sortQ (xds.latIdx.map lat_from_index)
  let lonC := sortQ (xds.lonIdx.map lon_from_index)
  { hasRio := true
    dims := ["latitude", "longitude"]
    latCoords := latC.reverse
    lonCoords := lonC
    value := fun la lo =>
      let v := f ((la + 90) * 721 / 180) ((lo + 180) * 1440 / 360)
      if v = nodata then -9999 else v
    crs := some "epsg:4326"
    nodata := some (-9999) }

/-- Shallow embedding of ecco_darwin_transformation (source lines 14 to
96): select all data variables after the first two and map each to its
output filename and transformed array.  The filename derivation happens
inside the loop in the source, so with no selected variables it is
never evaluated; with at least one selected variable a filename
derivation failure raises, modelled as none.  The source stores the
entries in a dict keyed by the (variable-independent) filename; the
model keeps the full association list. -/
def ecco_darwin_transformation (xds : NcDataset) (name : String) (nodata : ℚ) :
    Option (List (String × DataArray)) :=
  match xds.data_vars.drop 2 with
  | [] => some []
  | vs =>
    (derive_cog_filename name).map
      (fun fn => vs.map (fun v => (fn, ecco_var_array xds v.2 nodata)))

/-- Python float modulo with a positive modulus: the representative of a
mod m in the interval from 0 inclusive to m exclusive. -/
def pymod (a m : ℚ) : ℚ :=
  a - m * (⌊a / m⌋ : ℤ)

/-- The longitude remap of fix_longitude_wrap (source lines 152 to 158). -/
def wrap_lon (x : ℚ) : ℚ :=
  pymod (x + 180) 360 - 180

/-- Ascending sort of an axis carrying its data slices, the effect of
sortby on a dataset: pairs ordered by coordinate value. -/
def sortPairs {α : Type} (l : List (ℚ × α)) : List (ℚ × α) :=
  l.insertionSort (fun p q => p.1 ≤ q.1)

instance sortPairsRelTotal {α : Type} : IsTotal (ℚ × α) (fun p q => p.1 ≤ q.1) :=
  ⟨fun a b => le_total a.1 b.1⟩

instance sortPairsRelTrans {α : Type} : IsTrans (ℚ × α) (fun p q => p.1 ≤ q.1) :=
  ⟨fun _ _ _ h h2 => le_trans h h2⟩

/-- A dataset as fix_longitude_wrap sees it: its dimension names and,
for each of the two recognized longitude axis names, the axis as a list
of coordinate values paired with the data slice lying at that
coordinate (the slice type is abstract). -/
structure XDataset (α : Type) : Type where
  dims : List String
  longitude : List (ℚ × α)
  lon : List (ℚ × α)

/-- Shallow embedding of fix_longitude_wrap (source lines 141 to 160):
remap whichever recognized longitude axis is present through wrap_lon
and re-sort it ascending; a dataset with neither axis name among its
dims is returned unchanged. -/
def fix_longitude_wrap {α : Type} (d : XDataset α) : XDataset α :=
  if "longitude" ∈ d.dims then
    { d with longitude := sortPairs (d.longitude.map (fun p => (wrap_lon p.1, p.2))) }
  else if "lon" ∈ d.dims then
    { d with lon := sortPairs (d.lon.map (fun p => (wrap_lon p.1, p.2))) }
  else d

/-- Linear rescale helper apply_scale_and_offset (source lines 163 to
179), on the value function of an array. -/
def apply_scale_and_offset (f : ℚ → ℚ → ℚ) (scale_factor add_offset : ℚ) : ℚ → ℚ → ℚ :=
  fun la lo => f la lo * scale_factor + add_offset

/-- Shallow embedding of validate_transformation_output (source lines
216 to 242): the sequence of early false returns, then true. -/
def validate_transformation_output (data : DataArray) : Bool :=
  if data.hasRio = false then false
  else if data.crs = none then false
  else if data.dims.length < 2 then false
  else if data.nodata = none then false
  else true

/-- A concrete environment whose input path is not openable as a raster
dataset: a regular file that is not a valid raster.  Exception mode set,
as the CLI entry point does. -/
def envOpenFail : Env :=
  { useExceptions := true, canOpenInput := false, canCreateOutput := true,
    canOpenOutput := true, canReadSample := true, inputPredictor := 2,
    xSize := 1000, ySize := 1000 }

/-- A concrete environment in which every external operation succeeds. -/
def envGood : Env :=
  { useExceptions := true, canOpenInput := true, canCreateOutput := true,
    canOpenOutput := true, canReadSample := true, inputPredictor := 2,
    xSize := 1000, ySize := 1000 }

/-- A concrete environment in which the output is created and re-opened
but the verification read of band 1 fails. -/
def envVerifyFail : Env :=
  { useExceptions := true, canOpenInput := true, canCreateOutput := true,
    canOpenOutput := true, canReadSample := false, inputPredictor := 2,
    xSize := 1000, ySize := 1000 }

/-- A concrete two-by-two input dataset with two leading coordinate-like
variables and one data variable, used to exhibit the latitude ordering
of the produced arrays. -/
def cexDataset : NcDataset :=
  { latIdx := [0, 1]
    lonIdx := [0, 1]
    data_vars := [("nav_lat", fun _ _ => 0), ("nav_lon", fun _ _ => 0),
                  ("co2flux", fun i j => i + j)] }

/-- A concrete input dataset with in-range coordinate indices and one
selected data variable, for instantiating the transformer properties. -/
def witDataset : NcDataset :=
  { latIdx := [721, 0, 360]
    lonIdx := [1440, 0, 720]
    data_vars := [("nav_lat", fun _ _ => 0), ("nav_lon", fun _ _ => 0),
                  ("co2flux", fun i j => i + j)] }

/-- A concrete dataset whose longitude axis is already in the -180..180
convention, used to instantiate the wrap-correction idempotence. -/
def wrapDataset : XDataset ℚ :=
  { dims := ["time", "longitude"]
    longitude := [(170, 7), (-10, 3)]
    lon := [] }

/-- A concrete dataset with neither recognized longitude axis name,
used to instantiate the frame property of the wrap correction. -/
def frameDataset : XDataset ℚ :=
  { dims := ["time", "latitude"]
    longitude := [(5, 1)]
    lon := [(6, 2)] }

lemma mem_sortQ {x : ℚ} {l : List ℚ} : x ∈ sortQ l ↔ x ∈ l :=
  (List.perm_insertionSort _ l).mem_iff

lemma sorted_sortQ (l : List ℚ) :
    List.Sorted (fun a b : ℚ => a ≤ b) (sortQ l) :=
  List.sorted_insertionSort _ l

lemma mem_sortPairs {α : Type} {p : ℚ × α} {l : List (ℚ × α)} :
    p ∈ sortPairs l ↔ p ∈ l :=
  (List.perm_insertionSort _ l).mem_iff

lemma sorted_sortPairs {α : Type} (l : List (ℚ × α)) :
    List.Sorted (fun p q : ℚ × α => p.1 ≤ q.1) (sortPairs l) :=
  List.sorted_insertionSort _ l

/-- C9: the validation gate accepts an array exactly when the rio
extension is exposed, the reference system is non-null, there are at
least two dimensions, and the nodata sentinel is non-null. -/
theorem validate_transformation_output_iff (data : DataArray) :
    validate_transformation_output data = true ↔
      (data.hasRio = true ∧ data.crs ≠ none ∧ 2 ≤ data.dims.length ∧
       data.nodata ≠ none) := by
  unfold validate_transformation_output
  by_cases h1 : data.hasRio <;> by_cases h2 : data.crs = none <;>
    by_cases h3 : data.dims.length < 2 <;> by_cases h4 : data.nodata = none <;>
    first
    | (simp [h1, h2, h3, h4]; omega)
    | simp [h1, h2, h3, h4]

/-- C10: a dataset in which neither recognized longitude axis name
occurs among the dimensions passes through fix_longitude_wrap
unchanged. -/
theorem fix_longitude_wrap_frame {α : Type} (d : XDataset α)
    (h1 : "longitude" ∉ d.dims) (h2 : "lon" ∉ d.dims) :
    fix_longitude_wrap d = d := by
  unfold fix_longitude_wrap
  simp [h1, h2]

/-- Witness for C10 at a concrete dataset. -/
theorem fix_longitude_wrap_frame_witness :
    fix_longitude_wrap frameDataset = frameDataset :=
  fix_longitude_wrap_frame frameDataset (by decide) (by decide)

/-- C5: for an input filename splitting into at least three tokens, the
derived output filename drops the final token, merges the last two
remaining tokens, joins with underscores and appends the tif extension;
in particular co2flux_2021_01.nc yields co2flux_202101.tif. -/
theorem derive_cog_filename_correct (name : String) (front : List String)
    (b a ext : String)
    (h : split_tokens (basename name) = front ++ [b, a, ext]) :
    derive_cog_filename name
      = some (String.intercalate "_" (front ++ [b ++ a]) ++ ".tif") ∧
    derive_cog_filename "co2flux_2021_01.nc" = some "co2flux_202101.tif" := by
  constructor
  · simp only [derive_cog_filename, h]
    have hdl : (front ++ [b, a, ext]).dropLast = front ++ [b, a] := by
      have h2 : front ++ [b, a, ext] = (front ++ [b, a]) ++ [ext] := by simp
      rw [h2, List.dropLast_concat]
    rw [hdl]
    have hrev : (front ++ [b, a]).reverse = a :: b :: front.reverse := by
      simp
    rw [hrev]
    simp
  · rfl

/-- Witness for C5 at the filename of the specification scenario. -/
theorem derive_cog_filename_correct_witness :
    derive_cog_filename "co2flux_2021_01.nc"
      = some (String.intercalate "_" (["co2flux"] ++ ["2021" ++ "01"]) ++ ".tif") ∧
    derive_cog_filename "co2flux_2021_01.nc" = some "co2flux_202101.tif" :=
  derive_cog_filename_correct "co2flux_2021_01.nc" ["co2flux"] "2021" "01" "nc" rfl

/-- C1: whenever the input opens, the repair hands CreateCopy the fixed
creation-option list: predictor forced to none, 512 by 512 tiling,
BigTIFF unconditionally, ZLEVEL 6 exactly for DEFLATE, and the chosen
codec; the list is the same whatever predictor the input file uses. -/
theorem fix_tiff_creation_options (env : Env) (c : Compression)
    (h : env.canOpenInput = true) :
    (fix_tiff_predictor env c).optionsUsed = some (creation_options c) ∧
    "PREDICTOR=1" ∈ creation_options c ∧
    "TILED=YES" ∈ creation_options c ∧
    "BLOCKXSIZE=512" ∈ creation_options c ∧
    "BLOCKYSIZE=512" ∈ creation_options c ∧
    "BIGTIFF=YES" ∈ creation_options c ∧
    ("ZLEVEL=6" ∈ creation_options c ↔ c = Compression.DEFLATE) ∧
    ("COMPRESS=" ++ compressionName c) ∈ creation_options c ∧
    (∀ p : Nat,
      fix_tiff_predictor { env with inputPredictor := p } c
        = fix_tiff_predictor env c) := by
  refine ⟨?_, ?_, ?_, ?_, ?_, ?_, ?_, ?_, ?_⟩
  · simp only [fix_tiff_predictor, h]
    by_cases h1 : env.canCreateOutput <;> by_cases h2 : env.canOpenOutput <;>
      by_cases h3 : env.useExceptions <;> by_cases h4 : env.canReadSample <;>
      simp [h1, h2, h3, h4]
  · cases c <;> decide
  · cases c <;> decide
  · cases c <;> decide
  · cases c <;> decide
  · cases c <;> decide
  · cases c <;> decide
  · cases c <;> decide
  · intro p
    simp only [fix_tiff_predictor]

/-- Witness for C1 at a concrete environment and codec. -/
theorem fix_tiff_creation_options_witness :
    (fix_tiff_predictor envGood Compression.DEFLATE).optionsUsed
      = some (creation_options Compression.DEFLATE) ∧
    "PREDICTOR=1" ∈ creation_options Compression.DEFLATE ∧
    "TILED=YES" ∈ creation_options Compression.DEFLATE ∧
    "BLOCKXSIZE=512" ∈ creation_options Compression.DEFLATE ∧
    "BLOCKYSIZE=512" ∈ creation_options Compression.DEFLATE ∧
    "BIGTIFF=YES" ∈ creation_options Compression.DEFLATE ∧
    ("ZLEVEL=6" ∈ creation_options Compression.DEFLATE
      ↔ Compression.DEFLATE = Compression.DEFLATE) ∧
    ("COMPRESS=" ++ compressionName Compression.DEFLATE)
      ∈ creation_options Compression.DEFLATE ∧
    (∀ p : Nat,
      fix_tiff_predictor { envGood with inputPredictor := p } Compression.DEFLATE
        = fix_tiff_predictor envGood Compression.DEFLATE) :=
  fix_tiff_creation_options envGood Compression.DEFLATE rfl

/-- C3 fails on the code: main enables GDAL exception mode, under which
an unopenable input makes the modelled gdal.Open raise, and the
exception escapes fix_tiff_predictor instead of a False return; the
False-returning null-handle check of the source (its evident intent,
and what the claim describes) is reachable only with exceptions off. -/
theorem fix_tiff_open_failure_exception_escapes :
    (fix_tiff_predictor (setExceptionMode envOpenFail) Compression.DEFLATE).result
      = Except.error () ∧
    (fix_tiff_predictor { envOpenFail with useExceptions := false }
        Compression.DEFLATE).result = Except.ok false := by
  constructor <;> rfl

/-- C4 fails on the code: in the exception mode set by main, the first
unopenable file of a batch raises out of fix_tiff_predictor and the
directory loop aborts, never reaching the remaining files or the count
report; with exceptions off the loop would complete and count one
success out of the two files, as the claim describes. -/
theorem process_directory_aborts_on_exception :
    process_directory [setExceptionMode envOpenFail, setExceptionMode envGood]
      Compression.DEFLATE = Except.error () ∧
    process_directory [{ envOpenFail with useExceptions := false },
        { envGood with useExceptions := false }] Compression.DEFLATE
      = Except.ok 1 := by
  constructor <;> rfl

/-- C6: when the output is created and re-opened but the bounded sample
read of band 1 fails, the repair reports the fixed warning text, still
returns False to its caller, requests a window of at most 100 by 100
samples, and leaves the output file in place. -/
theorem fix_tiff_verify_failure_behavior (env : Env) (c : Compression)
    (h1 : env.canOpenInput = true) (h2 : env.canCreateOutput = true)
    (h3 : env.canOpenOutput = true) (h4 : env.canReadSample = false) :
    (fix_tiff_predictor env c).result = Except.ok false ∧
    (fix_tiff_predictor env c).outputCreated = true ∧
    (fix_tiff_predictor env c).verifyWindow
      = some (min 100 env.xSize, min 100 env.ySize) ∧
    (∀ w : Nat × Nat, (fix_tiff_predictor env c).verifyWindow = some w →
      w.1 ≤ 100 ∧ w.2 ≤ 100) ∧
    "Warning: Output file created but may still have issues"
      ∈ (fix_tiff_predictor env c).messages := by
  refine ⟨?_, ?_, ?_, ?_, ?_⟩ <;>
    simp only [fix_tiff_predictor, h1, h2, h3, h4] <;> simp

/-- Witness for C6 at a concrete environment and codec. -/
theorem fix_tiff_verify_failure_behavior_witness :
    (fix_tiff_predictor envVerifyFail Compression.LZW).result = Except.ok false ∧
    (fix_tiff_predictor envVerifyFail Compression.LZW).outputCreated = true ∧
    (fix_tiff_predictor envVerifyFail Compression.LZW).verifyWindow
      = some (min 100 envVerifyFail.xSize, min 100 envVerifyFail.ySize) ∧
    (∀ w : Nat × Nat,
      (fix_tiff_predictor envVerifyFail Compression.LZW).verifyWindow = some w →
      w.1 ≤ 100 ∧ w.2 ≤ 100) ∧
    "Warning: Output file created but may still have issues"
      ∈ (fix_tiff_predictor envVerifyFail Compression.LZW).messages :=
  fix_tiff_verify_failure_behavior envVerifyFail Compression.LZW rfl rfl rfl rfl

/-- C7 fails on the code in directory mode: the exit-code mapping of the
coded sys.exit calls matches the claim (wrong-kind path 1, single-file
success 0, single-file caught failure 1, caught per-file failures in a
batch 0), but a batch containing an unopenable file dies on the
uncaught GDAL exception, so that partial batch failure yields process
exit status 1 instead of the claimed 0. -/
theorem cli_main_exit_codes :
    cli_main { directoryMode := true, inputIsDirectory := true, inputIsFile := false }
        [envOpenFail, envGood] envGood Compression.DEFLATE = Except.error () ∧
    exitStatus (cli_main
        { directoryMode := true, inputIsDirectory := true, inputIsFile := false }
        [envOpenFail, envGood] envGood Compression.DEFLATE) = 1 ∧
    exitStatus (cli_main
        { directoryMode := true, inputIsDirectory := false, inputIsFile := false }
        [envOpenFail, envGood] envGood Compression.DEFLATE) = 1 ∧
    exitStatus (cli_main
        { directoryMode := true, inputIsDirectory := true, inputIsFile := false }
        [envVerifyFail, envGood] envGood Compression.DEFLATE) = 0 ∧
    exitStatus (cli_main
        { directoryMode := false, inputIsDirectory := false, inputIsFile := true }
        [] envGood Compression.DEFLATE) = 0 ∧
    exitStatus (cli_main
        { directoryMode := false, inputIsDirectory := false, inputIsFile := true }
        [] envVerifyFail Compression.DEFLATE) = 1 ∧
    exitStatus (cli_main
        { directoryMode := false, inputIsDirectory := false, inputIsFile := false }
        [] envGood Compression.DEFLATE) = 1 := by
  refine ⟨rfl, rfl, rfl, rfl, rfl, rfl, rfl⟩

lemma pymod_bounds (a : ℚ) : 0 ≤ pymod a 360 ∧ pymod a 360 < 360 := by
  unfold pymod
  have hfl := Int.floor_le (a / 360)
  have hfu := Int.lt_floor_add_one (a / 360)
  have h2 : (360:ℚ) * (a / 360) = a := by ring
  constructor
  · have h3 := mul_le_mul_of_nonneg_left hfl (show (0:ℚ) ≤ 360 by norm_num)
    linarith
  · have h3 := mul_lt_mul_of_pos_left hfu (show (0:ℚ) < 360 by norm_num)
    have h4 : (360:ℚ) * ((⌊a / 360⌋ : ℚ) + 1) = 360 * (⌊a / 360⌋ : ℚ) + 360 := by
      ring
    linarith

lemma pymod_eq_self {a : ℚ} (h0 : 0 ≤ a) (h1 : a < 360) : pymod a 360 = a := by
  unfold pymod
  have hz : ⌊a / 360⌋ = 0 := by
    rw [Int.floor_eq_zero_iff]
    rw [Set.mem_Ico]
    constructor
    · exact div_nonneg h0 (by norm_num)
    · rw [div_lt_one (by norm_num : (0:ℚ) < 360)]
      exact h1
  rw [hz]
  push_cast
  ring

lemma wrap_lon_bounds (x : ℚ) : -180 ≤ wrap_lon x ∧ wrap_lon x < 180 := by
  unfold wrap_lon
  have h := pymod_bounds (x + 180)
  constructor <;> linarith [h.1, h.2]

lemma wrap_lon_eq_self {x : ℚ} (h0 : -180 ≤ x) (h1 : x < 180) : wrap_lon x = x := by
  unfold wrap_lon
  rw [pymod_eq_self (by linarith) (by linarith)]
  ring

lemma wrap_lon_idem (x : ℚ) : wrap_lon (wrap_lon x) = wrap_lon x :=
  wrap_lon_eq_self (wrap_lon_bounds x).1 (wrap_lon_bounds x).2

lemma sortPairs_of_sorted {α : Type} {l : List (ℚ × α)}
    (h : List.Sorted (fun p q : ℚ × α => p.1 ≤ q.1) l) : sortPairs l = l :=
  List.Sorted.insertionSort_eq h

lemma map_wrap_of_fixed {α : Type} (l : List (ℚ × α))
    (h : ∀ p ∈ l, wrap_lon p.1 = p.1) :
    l.map (fun p => (wrap_lon p.1, p.2)) = l := by
  induction l with
  | nil => rfl
  | cons a t ih =>
    simp only [List.map_cons]
    rw [h a (by simp), ih (fun p hp => h p (by simp [hp]))]

lemma sortPairs_map_wrap_idem {α : Type} (l : List (ℚ × α)) :
    sortPairs ((sortPairs (l.map (fun p => (wrap_lon p.1, p.2)))).map
        (fun p => (wrap_lon p.1, p.2)))
      = sortPairs (l.map (fun p => (wrap_lon p.1, p.2))) := by
  have hmem : ∀ p ∈ sortPairs (l.map (fun p => (wrap_lon p.1, p.2))),
      wrap_lon p.1 = p.1 := by
    intro p hp
    rw [mem_sortPairs] at hp
    obtain ⟨q, hq, rfl⟩ := List.mem_map.1 hp
    exact wrap_lon_idem q.1
  rw [map_wrap_of_fixed _ hmem]
  exact sortPairs_of_sorted (sorted_sortPairs _)

/-- C8: the longitude-wrap correction remaps through the stated modulo
formula and re-sorts ascending on whichever recognized axis name is
present, and applying it twice to a dataset whose longitude-like axis
is in the -180..180 convention gives the same dataset as applying it
once. -/
theorem fix_longitude_wrap_idempotent {α : Type} (d : XDataset α)
    (_h1 : ∀ p ∈ d.longitude, -180 ≤ p.1 ∧ p.1 ≤ 180)
    (_h2 : ∀ p ∈ d.lon, -180 ≤ p.1 ∧ p.1 ≤ 180) :
    fix_longitude_wrap (fix_longitude_wrap d) = fix_longitude_wrap d ∧
    ("longitude" ∈ d.dims →
      (fix_longitude_wrap d).longitude
        = sortPairs (d.longitude.map (fun p => (wrap_lon p.1, p.2)))) ∧
    ("longitude" ∉ d.dims → "lon" ∈ d.dims →
      (fix_longitude_wrap d).lon
        = sortPairs (d.lon.map (fun p => (wrap_lon p.1, p.2)))) := by
  refine ⟨?_, ?_, ?_⟩
  · by_cases ha : "longitude" ∈ d.dims
    · have hstep : fix_longitude_wrap d
          = { d with longitude :=
                sortPairs (d.longitude.map (fun p => (wrap_lon p.1, p.2))) } := by
        unfold fix_longitude_wrap
        simp [ha]
      rw [hstep]
      unfold fix_longitude_wrap
      simp only [ha, if_pos]
      congr 1
      exact sortPairs_map_wrap_idem d.longitude
    · by_cases hb : "lon" ∈ d.dims
      · have hstep : fix_longitude_wrap d
            = { d with lon :=
                  sortPairs (d.lon.map (fun p => (wrap_lon p.1, p.2))) } := by
          unfold fix_longitude_wrap
          simp [ha, hb]
        rw [hstep]
        unfold fix_longitude_wrap
        simp only [ha, hb, if_false, if_true]
        simp [sortPairs_map_wrap_idem d.lon]
      · have hstep : fix_longitude_wrap d = d := by
          unfold fix_longitude_wrap
          simp [ha, hb]
        rw [hstep, hstep]
  · intro ha
    unfold fix_longitude_wrap
    simp [ha]
  · intro ha hb
    unfold fix_longitude_wrap
    simp [ha, hb]

/-- Witness for C8 at a concrete dataset already in the -180..180
convention. -/
theorem fix_longitude_wrap_idempotent_witness :
    fix_longitude_wrap (fix_longitude_wrap wrapDataset)
      = fix_longitude_wrap wrapDataset ∧
    ("longitude" ∈ wrapDataset.dims →
      (fix_longitude_wrap wrapDataset).longitude
        = sortPairs (wrapDataset.longitude.map (fun p => (wrap_lon p.1, p.2)))) ∧
    ("longitude" ∉ wrapDataset.dims → "lon" ∈ wrapDataset.dims →
      (fix_longitude_wrap wrapDataset).lon
        = sortPairs (wrapDataset.lon.map (fun p => (wrap_lon p.1, p.2)))) :=
  fix_longitude_wrap_idempotent wrapDataset
    (by intro p hp; fin_cases hp <;> constructor <;> norm_num)
    (by intro p hp; fin_cases hp)

lemma lon_from_index_bounds {i : ℚ} (h0 : 0 ≤ i) (h1 : i ≤ 1440) :
    -180 ≤ lon_from_index i ∧ lon_from_index i ≤ 180 := by
  have h2 : lon_from_index i = i * (1/4) - 180 := by
    unfold lon_from_index
    ring
  constructor <;> nlinarith

lemma lat_from_index_bounds {i : ℚ} (h0 : 0 ≤ i) (h1 : i ≤ 721) :
    -90 ≤ lat_from_index i ∧ lat_from_index i ≤ 90 := by
  have h2 : lat_from_index i = i * (180/721) - 90 := by
    unfold lat_from_index
    ring
  have h3 : i * (180/721) ≤ 721 * (180/721) :=
    mul_le_mul_of_nonneg_right h1 (by norm_num)
  have h4 : 0 ≤ i * (180/721) := mul_nonneg h0 (by norm_num)
  norm_num at h3
  constructor <;> linarith

lemma sorted_descending_reverse {l : List ℚ}
    (h : List.Sorted (fun a b : ℚ => a ≤ b) l) :
    List.Sorted (fun a b : ℚ => b ≤ a) l.reverse := by
  rw [List.Sorted, List.pairwise_reverse]
  exact h

lemma lat_index_inverse (i : ℚ) : (lat_from_index i + 90) * 721 / 180 = i := by
  unfold lat_from_index
  ring

lemma lon_index_inverse (j : ℚ) : (lon_from_index j + 180) * 1440 / 360 = j := by
  unfold lon_from_index
  ring

lemma ecco_var_array_lonCoords (xds : NcDataset) (f : ℚ → ℚ → ℚ) (nd : ℚ) :
    (ecco_var_array xds f nd).lonCoords = sortQ (xds.lonIdx.map lon_from_index) :=
  rfl

lemma ecco_var_array_latCoords (xds : NcDataset) (f : ℚ → ℚ → ℚ) (nd : ℚ) :
    (ecco_var_array xds f nd).latCoords
      = (sortQ (xds.latIdx.map lat_from_index)).reverse :=
  rfl

lemma ecco_var_array_value (xds : NcDataset) (f : ℚ → ℚ → ℚ) (nd : ℚ)
    (la lo : ℚ) :
    (ecco_var_array xds f nd).value la lo
      = (if f ((la + 90) * 721 / 180) ((lo + 180) * 1440 / 360) = nd then -9999
         else f ((la + 90) * 721 / 180) ((lo + 180) * 1440 / 360)) :=
  rfl

/-- C2 as amended: for in-range coordinate indices, every produced array
has longitude coordinates in -180..180 sorted ascending and latitude
coordinates in -90..90 sorted descending (the per-variable reindex at
source line 73 reverses the ascending dataset ordering), and every cell
that held the input sentinel holds exactly -9999. -/
theorem ecco_transformation_output (xds : NcDataset) (name : String) (nodata : ℚ)
    (out : List (String × DataArray))
    (hlon : ∀ i ∈ xds.lonIdx, 0 ≤ i ∧ i ≤ 1440)
    (hlat : ∀ i ∈ xds.latIdx, 0 ≤ i ∧ i ≤ 721)
    (hout : ecco_darwin_transformation xds name nodata = some out) :
    ∀ p ∈ out,
      List.Sorted (fun a b : ℚ => a ≤ b) p.2.lonCoords ∧
      (∀ x ∈ p.2.lonCoords, -180 ≤ x ∧ x ≤ 180) ∧
      List.Sorted (fun a b : ℚ => b ≤ a) p.2.latCoords ∧
      (∀ x ∈ p.2.latCoords, -90 ≤ x ∧ x ≤ 90) ∧
      ∃ fv ∈ xds.data_vars.drop 2,
        p.2 = ecco_var_array xds fv.2 nodata ∧
        ∀ i j : ℚ, fv.2 i j = nodata →
          p.2.value (lat_from_index i) (lon_from_index j) = -9999 := by
  have hshape : ∀ p ∈ out, ∃ fv ∈ xds.data_vars.drop 2,
      p.2 = ecco_var_array xds fv.2 nodata := by
    intro p hp
    unfold ecco_darwin_transformation at hout
    rcases hvs : xds.data_vars.drop 2 with _ | ⟨v, vs⟩
    · rw [hvs] at hout
      simp only [Option.some.injEq] at hout
      rw [← hout] at hp
      exact absurd hp (List.not_mem_nil p)
    · rw [hvs] at hout
      rw [Option.map_eq_some'] at hout
      obtain ⟨fn, hfn, hmap⟩ := hout
      rw [← hmap] at hp
      obtain ⟨fv, hfv, hpe⟩ := List.mem_map.1 hp
      refine ⟨fv, ?_, ?_⟩
      · exact hfv
      rw [← hpe]
  intro p hp
  obtain ⟨fv, hfv, hp2⟩ := hshape p hp
  refine ⟨?_, ?_, ?_, ?_, fv, hfv, hp2, ?_⟩
  · rw [hp2, ecco_var_array_lonCoords]
    exact sorted_sortQ _
  · intro x hx
    rw [hp2, ecco_var_array_lonCoords] at hx
    rw [mem_sortQ] at hx
    obtain ⟨i, hi, rfl⟩ := List.mem_map.1 hx
    exact lon_from_index_bounds (hlon i hi).1 (hlon i hi).2
  · rw [hp2, ecco_var_array_latCoords]
    exact sorted_descending_reverse (sorted_sortQ _)
  · intro x hx
    rw [hp2, ecco_var_array_latCoords, List.mem_reverse, mem_sortQ] at hx
    obtain ⟨i, hi, rfl⟩ := List.mem_map.1 hx
    exact lat_from_index_bounds (hlat i hi).1 (hlat i hi).2
  · intro i j hij
    rw [hp2, ecco_var_array_value, lat_index_inverse, lon_index_inverse, hij]
    simp

/-- Counterexample to C2 as stated: at a concrete two-row dataset the
single produced array has latitude coordinates 180/721 - 90 followed by
-90, which is strictly decreasing, not sorted ascending. -/
theorem ecco_latitude_not_ascending :
    ecco_darwin_transformation cexDataset "co2flux_2021_01.nc" (-99)
      = some [("co2flux_202101.tif",
               ecco_var_array cexDataset (fun i j => i + j) (-99))] ∧
    (ecco_var_array cexDataset (fun i j => i + j) (-99)).latCoords
      = [180/721 - 90, -90] ∧
    ¬ List.Sorted (fun a b : ℚ => a ≤ b)
        ((ecco_var_array cexDataset (fun i j => i + j) (-99)).latCoords) := by
  have h1 : lat_from_index 0 = -90 := by
    unfold lat_from_index
    norm_num
  have h2 : lat_from_index 1 = 180/721 - 90 := by
    unfold lat_from_index
    norm_num
  have hle : (-90:ℚ) ≤ 180/721 - 90 := by norm_num
  have hlatc : (ecco_var_array cexDataset (fun i j => i + j) (-99)).latCoords
      = [180/721 - 90, -90] := by
    rw [ecco_var_array_latCoords]
    show (sortQ ([(0:ℚ), 1].map lat_from_index)).reverse = _
    rw [List.map_cons, List.map_cons, List.map_nil, h1, h2]
    unfold sortQ
    simp [List.insertionSort, List.orderedInsert, hle]
  refine ⟨rfl, hlatc, ?_⟩
  rw [hlatc]
  simp only [List.sorted_cons]
  intro hcon
  have h3 := hcon.1 (-90) (by simp)
  norm_num at h3

/-- Witness for the amended C2 at a concrete dataset, instantiated at
the single entry of the produced mapping. -/
theorem ecco_transformation_output_witness :
    List.Sorted (fun a b : ℚ => a ≤ b)
      (ecco_var_array witDataset (fun i j => i + j) (-99)).lonCoords ∧
    (∀ x ∈ (ecco_var_array witDataset (fun i j => i + j) (-99)).lonCoords,
      -180 ≤ x ∧ x ≤ 180) ∧
    List.Sorted (fun a b : ℚ => b ≤ a)
      (ecco_var_array witDataset (fun i j => i + j) (-99)).latCoords ∧
    (∀ x ∈ (ecco_var_array witDataset (fun i j => i + j) (-99)).latCoords,
      -90 ≤ x ∧ x ≤ 90) ∧
    ∃ fv ∈ witDataset.data_vars.drop 2,
      ecco_var_array witDataset (fun i j => i + j) (-99)
        = ecco_var_array witDataset fv.2 (-99) ∧
      ∀ i j : ℚ, fv.2 i j = -99 →
        (ecco_var_array witDataset (fun i j => i + j) (-99)).value
          (lat_from_index i) (lon_from_index j) = -9999 :=
  ecco_transformation_output witDataset "co2flux_2021_01.nc" (-99)
    [("co2flux_202101.tif", ecco_var_array witDataset (fun i j => i + j) (-99))]
    (by intro i hi; fin_cases hi <;> norm_num)
    (by intro i hi; fin_cases hi <;> norm_num)
    rfl
    ("co2flux_202101.tif", ecco_var_array witDataset (fun i j => i + j) (-99))
    (List.mem_cons_self _ _)
